import Mathlib

/-!  Verification development for the phone-stream ingest server
(`src/server/config.py`, `src/server/outputs.py`, `src/server/bridge.py`,
`src/server/handler.py`, `src/gui/server_thread.py`).

Conventions of the shallow embedding: a Python byte is a `Nat` below 256, a
byte string is a `List Nat`, machine integers are `Nat`/`Int`/`Rat` (the code
never overflows Python ints), and shift/mask expressions on non-negative
integers are written in the equivalent division/remainder form where a proof
needs arithmetic reasoning.  Fallible operations return `Option`/`Except`.
-/

namespace VideoStreamer

/-- StreamConfig dataclass of `src/server/config.py` (lines 3-19), with its
default field values. -/
structure StreamConfig where
  phone_id : Nat
  port : Nat
  name : String
  width : Nat := 1280
  height : Nat := 720
  fps : Nat := 30
  video_bitrate : Nat := 4000000
  audio_enabled : Bool := false
  audio_sample_rate : Nat := 48000
  audio_channels : Nat := 2
  audio_bitrate : Nat := 128000
  device_model : String := "Unknown"
  battery_percent : Int := -1
  cpu_temperature_celsius : Rat := -1
deriving Repr, DecidableEq

/-- Frame type constant `FRAME_TYPE_VIDEO` of `src/omt/types.py` (line 4). -/
def FRAME_TYPE_VIDEO : Nat := 0x01

/-- Frame type constant `FRAME_TYPE_CONFIG` of `src/omt/types.py` (line 6). -/
def FRAME_TYPE_CONFIG : Nat := 0x03

/-- The mutable per-connection fields of `PhoneStreamHandler`
(`src/server/handler.py`, `__init__`, lines 27-66) that the claims touch. -/
structure HandlerState where
  current_width : Nat
  current_height : Nat
  current_fps : Nat
  audio_enabled : Bool
  device_model : String
  battery_percent : Int
  cpu_temperature_celsius : Rat
  aac_sample_rate_index : Nat
  aac_channel_config : Nat
  video_frame_pts : Nat
  pts_increment : Nat
  video_frame_count : Nat
  running : Bool
deriving Repr, DecidableEq

/-- `PhoneStreamHandler.__init__` (`src/server/handler.py` lines 27-66):
`pts_increment` is `90000 // config.fps`, computed once from the
StreamConfig default fps; the dynamic fields start from the StreamConfig
values; the AAC parameters default to index 3 (48 kHz) and 2 channels. -/
def initHandler (config : StreamConfig) : HandlerState where
  current_width := config.width
  current_height := config.height
  current_fps := config.fps
  audio_enabled := config.audio_enabled
  device_model := "Unknown"
  battery_percent := -1
  cpu_temperature_celsius := -1
  aac_sample_rate_index := 3
  aac_channel_config := 2
  video_frame_pts := 0
  pts_increment := 90000 / config.fps
  video_frame_count := 0
  running := false

/-- The handshake JSON of the wire protocol, after the external
`json.loads`: every key the handler reads (`src/server/handler.py`
lines 336-353) as an optional field; an absent key is `none`. -/
structure ConfigJson where
  video_width : Option Nat := none
  video_height : Option Nat := none
  video_fps : Option Nat := none
  video_bitrate : Option Nat := none
  audio_enabled : Option Bool := none
  audio_sampleRate : Option Nat := none
  audio_channels : Option Nat := none
  audio_bitrate : Option Nat := none
  device_model : Option String := none
  device_batteryPercent : Option Int := none
  device_cpuTemperatureCelsius : Option Rat := none
deriving Repr, DecidableEq

/-- The field updates performed by `receive_config` on a parsed handshake
JSON (`src/server/handler.py` lines 336-353).  Each `.get(key, default)`
becomes `Option.getD`.  Note the fallback values taken from the source: the
video fields fall back to the StreamConfig fields, but `audio.enabled` falls
back to the literal `True` (line 346), the device fields to the literals
`'Unknown'`, `-1`, `-1.0` (lines 351-353), and `pts_increment` is not
recomputed. -/
def applyConfigJson (config : StreamConfig) (j : ConfigJson) (s : HandlerState) :
    HandlerState :=
  { s with
    current_width := j.video_width.getD config.width
    current_height := j.video_height.getD config.height
    current_fps := j.video_fps.getD config.fps
    audio_enabled := j.audio_enabled.getD true
    device_model := j.device_model.getD "Unknown"
    battery_percent := j.device_batteryPercent.getD (-1)
    cpu_temperature_celsius := j.device_cpuTemperatureCelsius.getD (-1) }

/-- A StreamConfig with audio disabled by default, as the dataclass default
has it; used as a concrete test configuration. -/
def exampleConfig : StreamConfig where
  phone_id := 1
  port := 5000
  name := "VSS Camera 1"

/-- Claim C7 counterexample: for the StreamConfig default
`audio_enabled = False`, a handshake JSON with no `audio.enabled` key yields
`audio_enabled = True` (the literal fallback of handler.py line 346), not
the StreamConfig default, so the claim as stated is false. -/
theorem C7_counterexample :
    exampleConfig.audio_enabled = false ∧
    (applyConfigJson exampleConfig {} (initHandler exampleConfig)).audio_enabled
      = true := by
  constructor
  · rfl
  · rfl

/-- Claim C7, amended: absent `video.width`/`video.height`/`video.fps` fall
back to the StreamConfig defaults, but absent `audio.enabled` falls back to
the literal `True` (regardless of the StreamConfig `audio_enabled`), and the
absent device fields fall back to the literals `'Unknown'`, `-1`, `-1.0`. -/
theorem C7_absent_fields_fallbacks (config : StreamConfig) (s : HandlerState) :
    (applyConfigJson config {} s).current_width = config.width ∧
    (applyConfigJson config {} s).current_height = config.height ∧
    (applyConfigJson config {} s).current_fps = config.fps ∧
    (applyConfigJson config {} s).audio_enabled = true ∧
    (applyConfigJson config {} s).device_model = "Unknown" ∧
    (applyConfigJson config {} s).battery_percent = -1 ∧
    (applyConfigJson config {} s).cpu_temperature_celsius = -1 := by
  refine ⟨rfl, rfl, rfl, rfl, rfl, rfl, rfl⟩

/-- The per-decoded-frame publish step inside `process_video_frame`
(`src/server/handler.py` lines 411-437): each decoded picture is sent with
the current `video_frame_pts`; only when `output.send_video_frame` returns
true are `video_frame_count` and `video_frame_pts` advanced (lines 425-427).
The argument list is the sequence of send results of the external output, one
per decoded picture; the second component collects the `pts` argument that
each `send_video_frame` call received. -/
def processDecodedRun (s : HandlerState) : List Bool → HandlerState × List Nat
  | [] => (s, [])
  | success :: rest =>
      let sentPts := s.video_frame_pts
      let s1 := if success then
          { s with
            video_frame_count := s.video_frame_count + 1
            video_frame_pts := s.video_frame_pts + s.pts_increment }
        else s
      let r := processDecodedRun s1 rest
      (r.1, sentPts :: r.2)

/-- Closed form of `processDecodedRun`: the i-th send call receives
`pts0 + inc * (number of earlier successful sends)`, and the final counter
advanced once per successful send. -/
theorem processDecodedRun_spec (s : HandlerState) (results : List Bool) :
    (processDecodedRun s results).1.video_frame_pts
        = s.video_frame_pts + s.pts_increment * results.count true ∧
    (processDecodedRun s results).1.pts_increment = s.pts_increment ∧
    (processDecodedRun s results).2
        = (List.range results.length).map
            (fun i => s.video_frame_pts
              + s.pts_increment * ((results.take i).count true)) := by
  induction results generalizing s with
  | nil => simp [processDecodedRun]
  | cons r rest ih =>
    cases r with
    | false =>
      have e : processDecodedRun s (false :: rest)
          = ((processDecodedRun s rest).1,
             s.video_frame_pts :: (processDecodedRun s rest).2) := rfl
      obtain ⟨ih1, ih2, ih3⟩ := ih s
      refine ⟨?_, ?_, ?_⟩
      · rw [e]
        rw [ih1]
        simp [List.count_cons]
      · rw [e]
        exact ih2
      · rw [e]
        rw [List.length_cons, List.range_succ_eq_map, List.map_cons,
          List.map_map, ih3]
        refine congrArg₂ _ (by simp) (List.map_congr_left fun i _ => ?_)
        simp [Function.comp, List.count_cons]
    | true =>
      have e : processDecodedRun s (true :: rest)
          = ((processDecodedRun
                { s with
                  video_frame_count := s.video_frame_count + 1
                  video_frame_pts := s.video_frame_pts + s.pts_increment }
                rest).1,
             s.video_frame_pts ::
               (processDecodedRun
                { s with
                  video_frame_count := s.video_frame_count + 1
                  video_frame_pts := s.video_frame_pts + s.pts_increment }
                rest).2) := rfl
      obtain ⟨ih1, ih2, ih3⟩ := ih
        { s with
          video_frame_count := s.video_frame_count + 1
          video_frame_pts := s.video_frame_pts + s.pts_increment }
      refine ⟨?_, ?_, ?_⟩
      · rw [e]
        rw [ih1]
        simp only [List.count_cons]
        simp [Nat.mul_add, Nat.add_assoc, Nat.add_comm, Nat.add_left_comm]
      · rw [e]
        exact ih2
      · rw [e]
        rw [List.length_cons, List.range_succ_eq_map, List.map_cons,
          List.map_map, ih3]
        refine congrArg₂ _ (by simp) (List.map_congr_left fun i _ => ?_)
        simp only [Function.comp, List.take_succ_cons, List.count_cons]
        simp [Nat.mul_add, Nat.add_assoc, Nat.add_comm, Nat.add_left_comm]

/-- Claim C2 counterexample: config default fps 30, handshake negotiates
fps 60, two decoded frames both successfully sent.  The pts passed to the
two sends are 0 and 3000: the step is `90000 / 30 = 3000` from the
StreamConfig default, not `90000 / 60 = 1500` from the negotiated
`current_fps`, so the claim as stated is false. -/
theorem C2_counterexample :
    (applyConfigJson exampleConfig { video_fps := some 60 }
        (initHandler exampleConfig)).current_fps = 60 ∧
    (processDecodedRun
        (applyConfigJson exampleConfig { video_fps := some 60 }
          (initHandler exampleConfig))
        [true, true]).2 = [0, 3000] ∧
    (3000 : Nat) ≠ 90000 / 60 := by
  refine ⟨rfl, rfl, by decide⟩

/-- Claim C2, amended: over one connection the pts values of the successful
`send_video_frame` calls form a strictly increasing sequence with step
`90000 / fps` where `fps` is the StreamConfig default (set once in
`__init__`), not the fps negotiated in the handshake; when every send
succeeds the i-th call receives `(90000 / config.fps) * i`. -/
theorem C2_pts_step_uses_default_fps (config : StreamConfig) (j : ConfigJson)
    (n : Nat) (h1 : 0 < config.fps) (h2 : config.fps ≤ 90000) :
    (processDecodedRun (applyConfigJson config j (initHandler config))
        (List.replicate n true)).2
      = (List.range n).map (fun i => (90000 / config.fps) * i) ∧
    (processDecodedRun (applyConfigJson config j (initHandler config))
        (List.replicate n true)).2.Pairwise (· < ·) := by
  have hstep : 0 < 90000 / config.fps := Nat.div_pos h2 h1
  obtain ⟨-, -, h3⟩ :=
    processDecodedRun_spec (applyConfigJson config j (initHandler config))
      (List.replicate n true)
  have hpts : (applyConfigJson config j (initHandler config)).video_frame_pts
      = 0 := rfl
  have hinc : (applyConfigJson config j (initHandler config)).pts_increment
      = 90000 / config.fps := rfl
  have hcount : ∀ i : Nat, ((List.replicate n true).take i).count true
      = min i n := by
    intro i
    simp [List.take_replicate]
  have heq : (processDecodedRun (applyConfigJson config j (initHandler config))
      (List.replicate n true)).2
      = (List.range n).map (fun i => (90000 / config.fps) * i) := by
    rw [h3, hpts, hinc]
    simp only [List.length_replicate]
    refine List.map_congr_left fun i hi => ?_
    have : min i n = i := Nat.min_eq_left (Nat.le_of_lt (List.mem_range.mp hi))
    rw [hcount, this, Nat.zero_add]
  refine ⟨heq, ?_⟩
  rw [heq]
  refine List.Pairwise.map _ (fun a b hab => ?_) (List.pairwise_lt_range n)
  exact (Nat.mul_lt_mul_left hstep).mpr hab

/-- Witness for C2_pts_step_uses_default_fps at the example config with a
three-frame run. -/
theorem C2_pts_step_uses_default_fps_witness :
    0 < exampleConfig.fps ∧ exampleConfig.fps ≤ 90000 ∧
    (processDecodedRun (applyConfigJson exampleConfig {}
        (initHandler exampleConfig)) (List.replicate 3 true)).2
      = (List.range 3).map (fun i => (90000 / exampleConfig.fps) * i) := by
  refine ⟨by decide, by decide, ?_⟩
  exact (C2_pts_step_uses_default_fps exampleConfig {} 3
    (by decide) (by decide)).1

/-- Claim C10: inside `process_video_frame` the `video_frame_pts` counter is
advanced by `pts_increment` exactly on the decoded pictures whose send
returned true, so after a failed send the counter is unchanged and the next
call passes the same pts the dropped frame used.  Stated as the closed form
over any sequence of send results: the counter advances once per true
result, and the i-th send call receives the initial pts plus
`pts_increment` times the number of earlier successful sends. -/
theorem C10_pts_advances_iff_send_succeeds (s : HandlerState)
    (results : List Bool) :
    (processDecodedRun s results).1.video_frame_pts
        = s.video_frame_pts + s.pts_increment * results.count true ∧
    (processDecodedRun s results).2
        = (List.range results.length).map
            (fun i => s.video_frame_pts
              + s.pts_increment * ((results.take i).count true)) :=
  ⟨(processDecodedRun_spec s results).1, (processDecodedRun_spec s results).2.2⟩

/-- Extraction of the AAC parameters from the first two bytes of a codec
config payload (`src/server/handler.py` lines 452-453).  The source writes
`((data[0] & 0x07) << 1) | ((data[1] >> 7) & 0x01)` and
`(data[1] >> 3) & 0x0F`; since the first OR operand is even and the second
is below 2, the OR is a sum. -/
def parseAacConfig (d0 d1 : Nat) : Nat × Nat :=
  ((d0 % 8) * 2 + d1 / 128 % 2, d1 / 8 % 16)

/-- Both extracted AAC parameters are below 16, so they fit the ADTS bit
fields they are written into. -/
theorem parseAacConfig_lt_16 (d0 d1 : Nat) :
    (parseAacConfig d0 d1).1 < 16 ∧ (parseAacConfig d0 d1).2 < 16 := by
  unfold parseAacConfig
  constructor
  · have h1 : d0 % 8 < 8 := Nat.mod_lt d0 (by decide)
    have h2 : d1 / 128 % 2 < 2 := Nat.mod_lt _ (by decide)
    omega
  · exact Nat.mod_lt _ (by decide)

/-- `add_adts_header` (`src/server/handler.py` lines 541-579): the 7 header
bytes followed by the raw AAC payload.  Each byte is the source's shift/mask
expression in division/remainder form: byte 2 is
`(1 << 6) | (sr_idx << 2) | (ch >> 2)` (a sum of disjoint bit fields for the
stored parameter range `sr_idx < 16`, `ch < 16`), byte 3 is
`((ch & 0x3) << 6) | ((frame_length >> 11) & 0x3)`, byte 4 is
`(frame_length >> 3) & 0xFF`, byte 5 is
`((frame_length & 0x7) << 5) | 0x1F`, and `frame_length` is the payload
length plus 7. -/
def add_adts_header (sr_idx ch : Nat) (aac_frame : List Nat) : List Nat :=
  let frame_length := aac_frame.length + 7
  [0xFF, 0xF1,
   64 + sr_idx * 4 + ch / 4,
   (ch % 4) * 64 + frame_length / 2048 % 4,
   frame_length / 8 % 256,
   (frame_length % 8) * 32 + 0x1F,
   0xFC] ++ aac_frame

/-- The 13-bit frame-length field of an ADTS header: the low 2 bits of byte
3, byte 4, and the top 3 bits of byte 5 (the layout `add_adts_header`
writes). -/
def adtsFrameLengthField (frame : List Nat) : Nat :=
  (frame.getD 3 0 % 4) * 2048 + frame.getD 4 0 % 256 * 8 + frame.getD 5 0 / 32

/-- The frame-length field written by `add_adts_header` always reads back as
`frame_length mod 2^13`: the field is 13 bits wide. -/
theorem adts_frameLength_mod (sr_idx ch : Nat) (aac_frame : List Nat) :
    adtsFrameLengthField (add_adts_header sr_idx ch aac_frame)
      = (aac_frame.length + 7) % 8192 := by
  show ((ch % 4) * 64 + (aac_frame.length + 7) / 2048 % 4) % 4 * 2048
      + (aac_frame.length + 7) / 8 % 256 % 256 * 8
      + ((aac_frame.length + 7) % 8 * 32 + 0x1F) / 32
      = (aac_frame.length + 7) % 8192
  omega

/-- Claim C9 counterexample: for an 8185-byte payload, `frame_length` is
8192, which overflows the 13-bit ADTS frame-length field; the encoded field
reads back 0, not `payload length + 7`, so the claim as stated is false. -/
theorem C9_counterexample :
    adtsFrameLengthField (add_adts_header 3 2 (List.replicate 8185 0)) = 0 ∧
    (List.replicate 8185 (0 : Nat)).length + 7 = 8192 ∧ (0 : Nat) ≠ 8192 := by
  refine ⟨?_, by rw [List.length_replicate], by decide⟩
  rw [adts_frameLength_mod, List.length_replicate]

/-- Claim C9, amended: the frame submitted to the decoder is always the
7-byte ADTS header followed by the original payload, so stripping the first
7 bytes yields exactly the payload; the encoded frame-length field equals
`(payload length + 7) mod 8192`, which equals `payload length + 7` exactly
when the payload is at most 8184 bytes. -/
theorem C9_adts_header_roundtrip (sr_idx ch : Nat) (aac_frame : List Nat) :
    (add_adts_header sr_idx ch aac_frame).drop 7 = aac_frame ∧
    adtsFrameLengthField (add_adts_header sr_idx ch aac_frame)
      = (aac_frame.length + 7) % 8192 ∧
    (aac_frame.length ≤ 8184 →
      adtsFrameLengthField (add_adts_header sr_idx ch aac_frame)
        = aac_frame.length + 7) := by
  refine ⟨rfl, adts_frameLength_mod sr_idx ch aac_frame, fun h => ?_⟩
  rw [adts_frameLength_mod sr_idx ch aac_frame]
  omega

/-- Witness for C9_adts_header_roundtrip at a concrete 4-byte payload. -/
theorem C9_adts_header_roundtrip_witness :
    (add_adts_header 3 2 [10, 20, 30, 40]).drop 7 = [10, 20, 30, 40] ∧
    adtsFrameLengthField (add_adts_header 3 2 [10, 20, 30, 40]) = 11 := by
  obtain ⟨h1, -, h3⟩ := C9_adts_header_roundtrip 3 2 [10, 20, 30, 40]
  exact ⟨h1, by simpa using h3 (by decide)⟩

/-- Byte-wise interleave of the U and V planes into one UV plane:
`UV[2i] = U[i]`, `UV[2i+1] = V[i]` (`uv_data[0::2] = u_plane`,
`uv_data[1::2] = v_plane`, `src/server/handler.py` lines 519-521); when U
has one entry more than V (odd slot count) the last U byte ends the
plane. -/
def interleaveUV : List Nat → List Nat → List Nat
  | [], _ => []
  | u :: _, [] => [u]
  | u :: us, v :: vs => u :: v :: interleaveUV us vs

theorem interleaveUV_length (u v : List Nat) (h1 : v.length ≤ u.length)
    (h2 : u.length ≤ v.length + 1) :
    (interleaveUV u v).length = u.length + v.length := by
  induction u generalizing v with
  | nil =>
    have hv : v = [] := by
      cases v with
      | nil => rfl
      | cons b vs => simp at h1
    subst hv
    simp [interleaveUV]
  | cons a us ih =>
    cases v with
    | nil =>
      have hus : us = [] := by
        cases us with
        | nil => rfl
        | cons c cs => simp at h2
      subst hus
      simp [interleaveUV]
    | cons b vs =>
      simp only [interleaveUV, List.length_cons]
      rw [ih vs (by simpa using h1) (by simpa using h2)]
      omega

/-- `frame_to_nv12` (`src/server/handler.py` lines 506-525).  The planes of
the decoded picture arrive as flat byte lists.  The UV buffer is sized from
`self.config.width` and `self.config.height` (lines 514-515 — the
StreamConfig defaults, not the negotiated dimensions): `uv_data` has
`config.width * config.height // 2` entries, its even slots are assigned
from the U plane and its odd slots from the V plane.  The numpy slice
assignments require the plane lengths to equal the slot counts exactly; a
mismatch raises ValueError, modelled as `none` (numpy's broadcasting of a
single-element plane is not modelled: decoded planes have more than one
sample).  The Y plane is concatenated in front without any length check. -/
def frame_to_nv12 (config : StreamConfig) (y u v : List Nat) :
    Option (List Nat) :=
  if u.length = (config.width * config.height / 2 + 1) / 2
      ∧ v.length = config.width * config.height / 2 / 2 then
    some (y ++ interleaveUV u v)
  else
    none

/-- When the conversion succeeds, the NV12 buffer length is the Y-plane
length plus `config.width * config.height / 2` — tied to the StreamConfig
defaults, whatever dimensions were negotiated. -/
theorem frame_to_nv12_length (config : StreamConfig) (y u v nv12 : List Nat)
    (h : frame_to_nv12 config y u v = some nv12) :
    nv12.length = y.length + config.width * config.height / 2 := by
  unfold frame_to_nv12 at h
  split at h
  · rename_i hc
    obtain ⟨hu, hv⟩ := hc
    obtain rfl : y ++ interleaveUV u v = nv12 := Option.some.inj h
    rw [List.length_append, interleaveUV_length u v (by omega) (by omega)]
    omega
  · exact absurd h (by simp)

/-- Witness for frame_to_nv12_length: converting a matching 1280x720 frame
yields a buffer of `1280*720 + 1280*720/2` bytes. -/
theorem frame_to_nv12_length_witness :
    frame_to_nv12 exampleConfig (List.replicate (1280 * 720) 0)
        (List.replicate (1280 * 720 / 4) 0) (List.replicate (1280 * 720 / 4) 0)
      = some (List.replicate (1280 * 720) 0
          ++ interleaveUV (List.replicate (1280 * 720 / 4) 0)
               (List.replicate (1280 * 720 / 4) 0)) ∧
    (List.replicate (1280 * 720) (0 : Nat)
          ++ interleaveUV (List.replicate (1280 * 720 / 4) 0)
               (List.replicate (1280 * 720 / 4) 0)).length
      = 1280 * 720 * 3 / 2 := by
  have hc : (List.replicate (1280 * 720 / 4) (0 : Nat)).length
        = (exampleConfig.width * exampleConfig.height / 2 + 1) / 2
      ∧ (List.replicate (1280 * 720 / 4) (0 : Nat)).length
        = exampleConfig.width * exampleConfig.height / 2 / 2 := by
    rw [List.length_replicate]
    norm_num [exampleConfig]
  have h : frame_to_nv12 exampleConfig (List.replicate (1280 * 720) 0)
      (List.replicate (1280 * 720 / 4) 0) (List.replicate (1280 * 720 / 4) 0)
      = some (List.replicate (1280 * 720) 0
          ++ interleaveUV (List.replicate (1280 * 720 / 4) 0)
               (List.replicate (1280 * 720 / 4) 0)) := by
    unfold frame_to_nv12
    rw [if_pos hc]
  refine ⟨h, ?_⟩
  rw [frame_to_nv12_length exampleConfig _ _ _ _ h, List.length_replicate]
  norm_num [exampleConfig]

/-- One iteration of the publish loop in `process_video_frame`
(`src/server/handler.py` lines 411-437) for a single decoded picture:
convert to NV12, then call `output.send_video_frame(nv12, current_width,
current_height, video_frame_pts)` (lines 418-423).  The second component is
the argument tuple `(buffer, width, height, pts)` of the send call, or
`none` when `frame_to_nv12` raised (the surrounding `try` at line 439 then
returns `False` and nothing is published).  `send_ok` is the boolean the
external output returned. -/
def publishDecodedFrame (config : StreamConfig) (s : HandlerState)
    (y u v : List Nat) (send_ok : Bool) :
    HandlerState × Option (List Nat × Nat × Nat × Nat) :=
  match frame_to_nv12 config y u v with
  | none => (s, none)
  | some nv12 =>
      (if send_ok then
        { s with
          video_frame_count := s.video_frame_count + 1
          video_frame_pts := s.video_frame_pts + s.pts_increment }
      else s,
      some (nv12, s.current_width, s.current_height, s.video_frame_pts))

/-- A plane-length mismatch makes `frame_to_nv12` fail (the numpy slice
assignment raises ValueError). -/
theorem frame_to_nv12_none (config : StreamConfig) (y u v : List Nat)
    (h : ¬ (u.length = (config.width * config.height / 2 + 1) / 2
        ∧ v.length = config.width * config.height / 2 / 2)) :
    frame_to_nv12 config y u v = none := by
  unfold frame_to_nv12
  rw [if_neg h]

/-- When the conversion fails, the exception is caught and no frame is
sent: the handler state is unchanged and no send call happens. -/
theorem publishDecodedFrame_conv_fails (config : StreamConfig)
    (s : HandlerState) (y u v : List Nat) (send_ok : Bool)
    (h : frame_to_nv12 config y u v = none) :
    publishDecodedFrame config s y u v send_ok = (s, none) := by
  unfold publishDecodedFrame
  rw [h]

/-- Claim C3 failing input: StreamConfig defaults 1280x720, handshake
negotiates 1920x1080, the phone sends a 1920x1080 picture (Y plane
1920*1080 bytes, U and V planes 1920*1080/4 bytes).  `frame_to_nv12` sizes
the UV buffer from the 1280x720 defaults, the slice assignment raises, and
nothing is published at all — whereas the claim (and spec scenario 4)
requires a published buffer of length `1920*1080*3/2`. -/
theorem C3_reconfigured_frame_not_published :
    (publishDecodedFrame exampleConfig
        (applyConfigJson exampleConfig
          { video_width := some 1920, video_height := some 1080,
            video_fps := some 60 }
          (initHandler exampleConfig))
        (List.replicate (1920 * 1080) 0)
        (List.replicate (1920 * 1080 / 4) 0)
        (List.replicate (1920 * 1080 / 4) 0) true).2 = none := by
  rw [publishDecodedFrame_conv_fails]
  exact frame_to_nv12_none exampleConfig _ _ _ (by
    rw [List.length_replicate]
    norm_num [exampleConfig])

/-- Big-endian 32-bit value of four wire bytes (`struct.unpack('>I', ...)`),
each byte below 256. -/
def be32 (b0 b1 b2 b3 : Nat) : Nat :=
  ((b0 % 256) * 256 + b1 % 256) * 256 * 256 + (b2 % 256) * 256 + b3 % 256

/-- Result of `receive_config`: the returned boolean, the handler state
after the call, and the bytes left unread on the stream. -/
structure ReceiveConfigResult where
  ok : Bool
  state : HandlerState
  rest : List Nat
deriving Repr

/-- `receive_config` (`src/server/handler.py` lines 319-383).  It reads a
5-byte header — one type byte plus a big-endian 32-bit size (lines
323-326).  If the type byte is not `FRAME_TYPE_CONFIG` it logs a warning
and returns `False`, having consumed only those 5 bytes (lines 328-330).
Otherwise it reads `size` payload bytes and parses them with the external
`json.loads`, modelled by the `parse` argument; a JSON error is the caught
exception of line 381 and returns `False`.  A timeout or short read (fewer
than 5 header bytes, or fewer than `size` payload bytes ever arriving) also
returns `False` (lines 378-380). -/
def receive_config (config : StreamConfig) (s : HandlerState)
    (parse : List Nat → Option ConfigJson) (input : List Nat) :
    ReceiveConfigResult :=
  match input with
  | t :: b0 :: b1 :: b2 :: b3 :: rest =>
      if t ≠ FRAME_TYPE_CONFIG then
        { ok := false, state := s, rest := rest }
      else if be32 b0 b1 b2 b3 ≤ rest.length then
        match parse (rest.take (be32 b0 b1 b2 b3)) with
        | some j => { ok := true, state := applyConfigJson config j s,
                      rest := rest.drop (be32 b0 b1 b2 b3) }
        | none => { ok := false, state := s,
                    rest := rest.drop (be32 b0 b1 b2 b3) }
      else
        { ok := false, state := s, rest := [] }
  | other => { ok := false, state := s, rest := other }

/-- Outcome of the handshake phase of `handle_client`. -/
structure HandshakeResult where
  state : HandlerState
  config_received : Bool
  output_reconfigured : Bool
  enters_streaming_loop : Bool
  rest : List Nat
deriving Repr

/-- The handshake phase of `handle_client` (`src/server/handler.py` lines
93-153): call `receive_config`; when it returned `True`, reconfigure the
OMT output with the negotiated settings (lines 97-106); when it returned
`False`, only log a warning (lines 107-108).  Either way the code falls
through to decoder initialization (lines 110-129) and then enters the
streaming loop (line 153); no branch closes the connection before the
loop. -/
def handshakePhase (config : StreamConfig) (s : HandlerState)
    (parse : List Nat → Option ConfigJson) (input : List Nat) :
    HandshakeResult :=
  let r := receive_config config s parse input
  { state := r.state
    config_received := r.ok
    output_reconfigured := r.ok
    enters_streaming_loop := true
    rest := r.rest }

/-- Claim C6 counterexample: a first frame of video type (0x01) makes
`receive_config` return `False` with the handler state still at the
defaults, and `handle_client` then proceeds to the streaming phase — the
connection is not closed as a protocol violation. -/
theorem C6_counterexample :
    (receive_config exampleConfig (initHandler exampleConfig)
        (fun _ => some {})
        (FRAME_TYPE_VIDEO :: 0 :: 0 :: 0 :: 5 :: [1, 2, 3, 4, 5])).ok
      = false ∧
    (handshakePhase exampleConfig (initHandler exampleConfig)
        (fun _ => some {})
        (FRAME_TYPE_VIDEO :: 0 :: 0 :: 0 :: 5 :: [1, 2, 3, 4, 5])).enters_streaming_loop = true ∧
    (handshakePhase exampleConfig (initHandler exampleConfig)
        (fun _ => some {})
        (FRAME_TYPE_VIDEO :: 0 :: 0 :: 0 :: 5 :: [1, 2, 3, 4, 5])).state
      = initHandler exampleConfig := by
  refine ⟨rfl, rfl, rfl⟩

/-- Claim C6, amended: when the first frame is not of configuration type,
`receive_config` consumes the 5 header bytes and returns `False` with the
handler state unchanged, and `handle_client` logs a warning and proceeds to
the streaming phase with the StreamConfig defaults; the connection is not
closed and the wrong first frame is not treated as fatal. -/
theorem C6_wrong_first_type_streams_with_defaults (config : StreamConfig)
    (s : HandlerState) (parse : List Nat → Option ConfigJson)
    (t b0 b1 b2 b3 : Nat) (rest : List Nat) (h : t ≠ FRAME_TYPE_CONFIG) :
    receive_config config s parse (t :: b0 :: b1 :: b2 :: b3 :: rest)
      = { ok := false, state := s, rest := rest } ∧
    handshakePhase config s parse (t :: b0 :: b1 :: b2 :: b3 :: rest)
      = { state := s, config_received := false, output_reconfigured := false,
          enters_streaming_loop := true, rest := rest } := by
  have e : receive_config config s parse (t :: b0 :: b1 :: b2 :: b3 :: rest)
      = { ok := false, state := s, rest := rest } := by
    simp only [receive_config]
    rw [if_pos h]
  refine ⟨e, ?_⟩
  unfold handshakePhase
  rw [e]

/-- Witness for C6_wrong_first_type_streams_with_defaults at a concrete
wrong-typed first frame. -/
theorem C6_wrong_first_type_witness :
    receive_config exampleConfig (initHandler exampleConfig) (fun _ => none)
        (FRAME_TYPE_VIDEO :: 0 :: 0 :: 0 :: 2 :: [9, 9])
      = { ok := false, state := initHandler exampleConfig, rest := [9, 9] } :=
  (C6_wrong_first_type_streams_with_defaults exampleConfig
    (initHandler exampleConfig) (fun _ => none) FRAME_TYPE_VIDEO 0 0 0 2 [9, 9]
    (by decide)).1

/-- The 10-second deadline on reading a 17-byte data-frame header
(`src/server/handler.py` lines 158-162). -/
def HEADER_READ_TIMEOUT : Nat := 10

/-- The 5-second sleep between watchdog checks (line 585). -/
def WATCHDOG_CHECK_INTERVAL : Nat := 5

/-- `self.connection_timeout = 30.0` (line 45). -/
def CONNECTION_TIMEOUT : Nat := 30

/-- Timing of the post-handshake streaming loop (`src/server/handler.py`
lines 152-222) as a function of the absolute arrival times of the complete
frames, with processing time taken as zero.  Each iteration records
`last_frame_time := now` (line 155) and then waits up to
`HEADER_READ_TIMEOUT` seconds for the next frame header (lines 158-171):
if no frame arrives in time the read times out and the loop breaks, ending
the connection; otherwise the iteration completes at the arrival time and
the loop re-enters.  Returns the absolute time at which the loop ends. -/
def streamLoopEnd (now : Nat) : List Nat → Nat
  | [] => now + HEADER_READ_TIMEOUT
  | a :: rest =>
      if a ≤ now + HEADER_READ_TIMEOUT then streamLoopEnd (max now a) rest
      else now + HEADER_READ_TIMEOUT

/-- The absolute times at which `connection_watchdog` (`src/server/handler.py`
lines 581-598) wakes while the handler still runs: every
`WATCHDOG_CHECK_INTERVAL` seconds from its spawn at `t0`, up to the loop
end time `tEnd`. -/
def watchdogChecks (t0 tEnd : Nat) : List Nat :=
  ((List.range ((tEnd - t0) / WATCHDOG_CHECK_INTERVAL + 1)).map
      (fun k => t0 + WATCHDOG_CHECK_INTERVAL * (k + 1))).filter (· ≤ tEnd)

/-- Whether some watchdog check observes more than `CONNECTION_TIMEOUT`
seconds since `last_frame_time` and clears `running` (lines 587-595). -/
def watchdogFires (last_frame_time : Nat) (checks : List Nat) : Bool :=
  checks.any (fun t => decide (CONNECTION_TIMEOUT < t - last_frame_time))

/-- Claim C5 counterexample: a connection that completes the handshake at
time 0 and then sends nothing is ended by the 10-second header-read timeout
at time 10, strictly before the 30-second mark, and no watchdog check ever
observes more than the 30-second timeout — so the claim that the stream is
kept open until 30 s of silence and terminated by the watchdog is false. -/
theorem C5_counterexample :
    streamLoopEnd 0 [] = 10 ∧
    watchdogFires 0 (watchdogChecks 0 (streamLoopEnd 0 [])) = false ∧
    (10 : Nat) < 30 := by
  refine ⟨rfl, by decide, by decide⟩

/-- Claim C5, amended: a post-handshake connection that sends no further
frames is terminated `HEADER_READ_TIMEOUT = 10` seconds after entering the
streaming loop by the header-read timeout (logged as no data after 10s),
not by the watchdog: since `last_frame_time` is refreshed at the top of the
loop iteration, every watchdog check during the wait sees at most 10
seconds of silence, below the 30-second `connection_timeout`. -/
theorem C5_idle_ends_at_header_timeout (t0 : Nat) :
    streamLoopEnd t0 [] = t0 + HEADER_READ_TIMEOUT ∧
    watchdogFires t0 (watchdogChecks t0 (t0 + HEADER_READ_TIMEOUT)) = false ∧
    HEADER_READ_TIMEOUT < CONNECTION_TIMEOUT := by
  refine ⟨rfl, ?_, by decide⟩
  unfold watchdogFires
  rw [List.any_eq_false]
  intro t ht
  have h2 := (List.mem_filter.mp ht).2
  have h3 : t ≤ t0 + HEADER_READ_TIMEOUT := by simpa using h2
  simp only [decide_eq_true_eq]
  unfold CONNECTION_TIMEOUT
  unfold HEADER_READ_TIMEOUT at h3
  omega

/-- The info dict built by `patched_config` after a successful handshake
(`src/gui/server_thread.py` lines 158-166); the `latency` and `handler`
entries carry no claim content and are omitted. -/
structure ConnInfo where
  device_model : String
  battery : Int
  temperature : Rat
  resolution : String
  fps : Nat
deriving Repr, DecidableEq

/-- The Qt signals the GUI thread receives for one stream: the
`connection_changed(stream_id, connected, info)` and
`frame_received(stream_id, ...)` emissions of `src/gui/server_thread.py`;
an empty info dict is `none`. -/
inductive HostEvent where
  | connectionChanged (stream_id : Nat) (connected : Bool) (info : Option ConnInfo)
  | frameDecoded (stream_id : Nat)
deriving Repr, DecidableEq

/-- The info built from the handler state (`src/gui/server_thread.py`
lines 158-166). -/
def negotiatedInfo (s : HandlerState) : ConnInfo where
  device_model := s.device_model
  battery := s.battery_percent
  temperature := s.cpu_temperature_celsius
  resolution := toString s.current_width ++ "x" ++ toString s.current_height
  fps := s.current_fps

/-- The events emitted for one accepted connection by `patched_handle`
(`src/gui/server_thread.py` lines 139-256), in order: an initial
`connection_changed(phone_id, True, {})` at entry (line 147); a second
`connection_changed(phone_id, True, info)` when `receive_config` returned
`True` (lines 154-172); one `frame_received` per data-frame call of
`process_video_frame` that returned `True` while the GUI thread runs
(lines 179-201, `frame_results` lists the per-call results); finally, in
the `finally` block, `connection_changed(phone_id, False, {})` exactly when
the thread is running and not shutting down (lines 216-229). -/
def patchedHandleEvents (phone_id : Nat) (handshake_ok : Bool)
    (info : ConnInfo) (frame_results : List Bool)
    (thread_running shutdown_in_progress : Bool) : List HostEvent :=
  [HostEvent.connectionChanged phone_id true none]
  ++ (if handshake_ok then
        [HostEvent.connectionChanged phone_id true (some info)]
      else [])
  ++ (frame_results.filter (fun r => r && thread_running)).map
        (fun _ => HostEvent.frameDecoded phone_id)
  ++ (if thread_running && !shutdown_in_progress then
        [HostEvent.connectionChanged phone_id false none]
      else [])

/-- Recognizer for a `ConnectionChanged{true}` event. -/
def isConnectTrue : HostEvent → Bool
  | HostEvent.connectionChanged _ true _ => true
  | _ => false

/-- A concrete negotiated-parameters info record. -/
def exampleInfo : ConnInfo where
  device_model := "X"
  battery := 77
  temperature := 41.2
  resolution := "1280x720"
  fps := 30

/-- Claim C4 counterexample: for a connection whose handshake succeeds and
that decodes one frame, the GUI receives two `ConnectionChanged{true}`
events — an info-less one at accept and the info-bearing one after the
handshake — not exactly one, so the claimed event sequence
`ConnectionChanged{true}` then `FrameDecoded*` then
`ConnectionChanged{false}` is false as stated. -/
theorem C4_counterexample :
    patchedHandleEvents 1 true exampleInfo [true] true false
      = [HostEvent.connectionChanged 1 true none,
         HostEvent.connectionChanged 1 true (some exampleInfo),
         HostEvent.frameDecoded 1,
         HostEvent.connectionChanged 1 false none] ∧
    (patchedHandleEvents 1 true exampleInfo [true] true false).countP
        isConnectTrue = 2 ∧
    (2 : Nat) ≠ 1 := by
  refine ⟨rfl, rfl, by decide⟩

/-- Count of successful frames equals the length of the filter the GUI
applies. -/
theorem filter_self_length_eq_count (l : List Bool) :
    (l.filter (fun r => r)).length = l.count true := by
  induction l with
  | nil => rfl
  | cons a as ih =>
    cases a with
    | false => simpa [List.filter, List.count_cons] using ih
    | true => simpa [List.filter, List.count_cons] using ih

/-- Claim C4, amended: for every accepted connection whose handshake
succeeds (GUI thread running, no shutdown in progress), the emitted
sequence is `ConnectionChanged{true, {}}` at accept, then exactly one
`ConnectionChanged{true, info}` with the negotiated parameters, then one
`FrameDecoded` per successfully processed frame, then a single terminating
`ConnectionChanged{false}`. -/
theorem C4_event_sequence (phone_id : Nat) (info : ConnInfo)
    (frame_results : List Bool) :
    patchedHandleEvents phone_id true info frame_results true false
      = [HostEvent.connectionChanged phone_id true none,
         HostEvent.connectionChanged phone_id true (some info)]
        ++ List.replicate (frame_results.count true)
            (HostEvent.frameDecoded phone_id)
        ++ [HostEvent.connectionChanged phone_id false none] := by
  unfold patchedHandleEvents
  rw [if_pos rfl]
  simp only [Bool.and_true, Bool.not_false, List.map_const']
  rw [filter_self_length_eq_count]
  simp

/-- A Python value passed as a positional argument. -/
inductive PyVal where
  | str (s : String)
  | int (i : Int)
deriving Repr, DecidableEq

/-- `OMTQuality.Medium` (`src/omt/types.py` line 21). -/
def OMTQuality_Medium : Nat := 50

/-- The state of a constructed `OMTOutput` (`src/server/outputs.py` lines
56-72): the stored name and library path, the quality the underlying sender
was created with, and the tracked configuration and counters. -/
structure OMTOutputObj where
  name : String
  lib_path : String
  sender_quality : Nat
  current_width : Nat := 1280
  current_height : Nat := 720
  current_fps : Nat := 30
  video_frame_count : Nat := 0
  audio_frame_count : Nat := 0
deriving Repr, DecidableEq

/-- Construction of an `OMTOutput` (`src/server/outputs.py` lines 59-72):
`def __init__(self, name, lib_path="libomt.dll")` binds at most two
positional arguments beside `self`, the second one optional; a call with
any other positional shape raises TypeError before the body runs.  The body
creates the underlying sender with the hardcoded `OMTQuality.Medium`
(line 63; a sender-creation failure would raise RuntimeError and is
modelled as success, which only strengthens the refutation below) and seeds
the tracked configuration with 1280x720@30. -/
def OMTOutput.construct (pos_args : List PyVal) : Except String OMTOutputObj :=
  match pos_args with
  | [PyVal.str name] =>
      .ok { name := name, lib_path := "libomt.dll",
            sender_quality := OMTQuality_Medium }
  | [PyVal.str name, PyVal.str lib_path] =>
      .ok { name := name, lib_path := lib_path,
            sender_quality := OMTQuality_Medium }
  | _ => .error "TypeError"

/-- A TCP listening socket as `asyncio.start_server` would create it. -/
structure Listener where
  bind_ip : String
  port : Nat
  reuse_address : Bool
deriving Repr, DecidableEq

/-- The per-config body of the start loop of `OMTBridgeServer.start` for
the OMT output kind (`src/server/bridge.py` lines 130-201): construct
`OMTOutput(config.name, self.omt_lib_path, self.omt_quality)` — three
positional arguments (line 136) — then open the TCP listener on
`(bind_address, config.port)` with `reuse_address=True` (lines 189-194).
Any exception in the block is caught at line 200, logged, and the loop
moves on: the listener for that stream is never created. -/
def startStreamSetup (bind_address : String) (config : StreamConfig)
    (omt_lib_path : String) (omt_quality : Int) : Option Listener :=
  match OMTOutput.construct
      [PyVal.str config.name, PyVal.str omt_lib_path,
       PyVal.int omt_quality] with
  | .error _ => none
  | .ok _ => some { bind_ip := bind_address, port := config.port,
                    reuse_address := true }

/-- Claim C1: with the OMT output kind, the three-positional-argument call
`OMTOutput(name, lib_path, quality)` always raises TypeError against the
two-parameter `__init__`, the exception handler swallows it, and therefore
no stream ever gets a listening socket — for every bind address, config,
library path and quality level the setup yields no listener, refuting the
claim that every configured stream ends up with one. -/
theorem C1_omt_start_creates_no_listener (bind_address : String)
    (config : StreamConfig) (omt_lib_path : String) (omt_quality : Int) :
    startStreamSetup bind_address config omt_lib_path omt_quality = none :=
  rfl

/-- The attributes an `OMTOutput` instance exposes: the fields assigned in
`__init__` (`src/server/outputs.py` lines 59-72) and the methods of the
class body (lines 74-204) together with those inherited from `FrameOutput`
(lines 17-26).  No `update_quality` is among them. -/
def omtOutputAttrs : List String :=
  ["name", "lib_path", "sender", "current_width", "current_height",
   "current_fps", "video_frame_count", "audio_frame_count",
   "reconfigure", "send_video_frame", "send_audio_frame", "destroy"]

/-- One iteration of `update_omt_quality` (`src/server/bridge.py` lines
237-245): `output.update_quality(quality_value)` first looks the attribute
up on the instance; since the class defines no such attribute the lookup
raises AttributeError, which the `except Exception` at line 244 catches and
logs, leaving the output unchanged. -/
def updateQualityOne (o : OMTOutputObj) (quality_value : Nat) : OMTOutputObj :=
  if omtOutputAttrs.contains "update_quality" then
    { o with sender_quality := quality_value }
  else
    o

/-- `OMTBridgeServer.update_omt_quality` (`src/server/bridge.py` lines
237-245) applied to the tracked OMT outputs. -/
def update_omt_quality (outputs : List OMTOutputObj) (quality_value : Nat) :
    List OMTOutputObj :=
  outputs.map (fun o => updateQualityOne o quality_value)

/-- Claim C8: the update-quality operation has no effect on any output —
every `output.update_quality(...)` call raises AttributeError (the class
has no such method), the exception is caught per output, and every
publisher keeps the quality it was created with (`OMTQuality.Medium`); so
after the call the effective quality does not equal the requested level
whenever that level differs from Medium. -/
theorem C8_update_quality_has_no_effect (outputs : List OMTOutputObj)
    (quality_value : Nat) :
    update_omt_quality outputs quality_value = outputs := by
  have h : omtOutputAttrs.contains "update_quality" = false := by decide
  unfold update_omt_quality updateQualityOne
  simp only [h, Bool.false_eq_true, if_false]
  exact List.map_id outputs

end VideoStreamer
